import Mathlib

/-!
Verification development for the wiki-game-benchmark repository.

The repository contains the UI clients (`ui/src/api/client.ts`,
`ui/src/components/GameStart.tsx`, the `wiki-game-demo` pages) and the API
design document (`src/api/README.md`).  The orchestration core itself
(game-state store, work queue, API gateway, worker loop) is described by the
specification but its implementation is not part of the source tree, so the
definitions in the first section are modelled from the spec; the definitions
in the later sections are translated directly from the TypeScript sources.
-/

namespace WikiGame

/-- Modelled from the spec: a recorded move, `{article: string, timestamp:
instant}` (§3 DATA MODEL).  Timestamps are modelled as naturals. -/
structure Move where
  article : String
  timestamp : Nat
deriving DecidableEq, Repr

/-- Modelled from the spec: the GameRecord held by the Game State Store
(§3 DATA MODEL), with the implicit `version` counter made explicit. -/
structure GameRecord where
  id : String
  startArticle : String
  endArticle : String
  currentArticle : String
  moves : List Move
  isComplete : Bool
  version : Nat
deriving DecidableEq, Repr

/-- Modelled from the spec: the record written by `createGame` — empty
`moves`, `currentArticle` initialized to `startArticle`, and `isComplete`
derived from `currentArticle == endArticle` so that the store never holds a
record violating that derivation (§3 invariants, §4.3). -/
def createGameRecord (id startArticle endArticle : String) : GameRecord :=
  { id := id
    startArticle := startArticle
    endArticle := endArticle
    currentArticle := startArticle
    moves := []
    isComplete := startArticle == endArticle
    version := 0 }

/-- Modelled from the spec: the non-idempotent branch of `submitMove` —
appends `{article, timestamp: now}` to `moves`, sets `currentArticle =
article`, sets `isComplete = (article == endArticle)`, and advances the
version (§4.3). -/
def applyMove (g : GameRecord) (article : String) (now : Nat) : GameRecord :=
  { g with
    moves := g.moves ++ [{ article := article, timestamp := now }]
    currentArticle := article
    isComplete := article == g.endArticle
    version := g.version + 1 }

/-- Modelled from the spec: the record-level transition of `submitMove`
(§4.3).  Idempotency rule: if `moves` is non-empty and `moves[last].article
== article`, the operation is a no-op returning the current record
unchanged; otherwise the move is applied. -/
def submitMoveRecord (g : GameRecord) (article : String) (now : Nat) : GameRecord :=
  match g.moves.getLast? with
  | some m => if m.article == article then g else applyMove g article now
  | none => applyMove g article now

/-- Modelled from the spec: the reachable game records — those produced by
`createGame` followed by any sequence of applied `submitMove` transitions
(§4.3 is the only mutation path; reads do not change the record). -/
inductive Reachable : GameRecord → Prop where
  | created (id startArticle endArticle : String) :
      Reachable (createGameRecord id startArticle endArticle)
  | step (g : GameRecord) (article : String) (now : Nat) :
      Reachable g → Reachable (submitMoveRecord g article now)

theorem getLast?_after_submit (g : GameRecord) (a : String) (t : Nat) :
    ∃ m : Move, (submitMoveRecord g a t).moves.getLast? = some m ∧ m.article = a := by
  unfold submitMoveRecord
  cases h : g.moves.getLast? with
  | none =>
      refine ⟨{ article := a, timestamp := t }, ?_, rfl⟩
      simp [applyMove]
  | some m =>
      by_cases hm : m.article = a
      · exact ⟨m, by simp [hm, h], hm⟩
      · refine ⟨{ article := a, timestamp := t }, ?_, rfl⟩
        simp [hm, applyMove]

theorem submit_noop_of_last (g : GameRecord) (a : String) (t : Nat) (m : Move)
    (hlast : g.moves.getLast? = some m) (harticle : m.article = a) :
    submitMoveRecord g a t = g := by
  unfold submitMoveRecord
  simp [hlast, harticle]

/-- The position invariant of §3: `currentArticle` equals the last move's
article once `moves` is non-empty, else equals `startArticle`. -/
def PositionInv (g : GameRecord) : Prop :=
  match g.moves.getLast? with
  | some m => g.currentArticle = m.article
  | none => g.currentArticle = g.startArticle

/-- The termination-correctness invariant of §3/§8: `isComplete` is exactly
the derivation `currentArticle == endArticle`. -/
def CompletionInv (g : GameRecord) : Prop :=
  g.isComplete = true ↔ g.currentArticle = g.endArticle

theorem completionInv_create (id s e : String) :
    CompletionInv (createGameRecord id s e) := by
  simp [CompletionInv, createGameRecord]

theorem completionInv_apply (g : GameRecord) (a : String) (t : Nat) :
    CompletionInv (applyMove g a t) := by
  simp [CompletionInv, applyMove]

theorem completionInv_submit (g : GameRecord) (a : String) (t : Nat)
    (h : CompletionInv g) : CompletionInv (submitMoveRecord g a t) := by
  unfold submitMoveRecord
  cases hl : g.moves.getLast? with
  | none => exact completionInv_apply g a t
  | some m =>
      by_cases hm : m.article = a
      · simpa [hm] using h
      · simpa [hm] using completionInv_apply g a t

theorem completionInv_reachable (g : GameRecord) (h : Reachable g) :
    CompletionInv g := by
  induction h with
  | created id s e => exact completionInv_create id s e
  | step g a t _ ih => exact completionInv_submit g a t ih

theorem positionInv_create (id s e : String) :
    PositionInv (createGameRecord id s e) := by
  simp [PositionInv, createGameRecord]

theorem positionInv_apply (g : GameRecord) (a : String) (t : Nat) :
    PositionInv (applyMove g a t) := by
  simp [PositionInv, applyMove]

theorem positionInv_submit (g : GameRecord) (a : String) (t : Nat)
    (h : PositionInv g) : PositionInv (submitMoveRecord g a t) := by
  unfold submitMoveRecord
  cases hl : g.moves.getLast? with
  | none => exact positionInv_apply g a t
  | some m =>
      by_cases hm : m.article = a
      · simpa [hm] using h
      · simpa [hm] using positionInv_apply g a t

theorem positionInv_reachable (g : GameRecord) (h : Reachable g) :
    PositionInv g := by
  induction h with
  | created id s e => exact positionInv_create id s e
  | step g a t _ ih => exact positionInv_submit g a t ih

theorem submit_cases (g : GameRecord) (a : String) (t : Nat) :
    submitMoveRecord g a t = g ∨
      submitMoveRecord g a t = applyMove g a t := by
  unfold submitMoveRecord
  cases hl : g.moves.getLast? with
  | none => right; rfl
  | some m =>
      by_cases hm : m.article = a
      · left; simp [hm]
      · right; simp [hm]

theorem submit_moves_ne_nil (g : GameRecord) (a : String) (t : Nat) :
    (submitMoveRecord g a t).moves ≠ [] := by
  obtain ⟨m, hm, -⟩ := getLast?_after_submit g a t
  intro hnil
  rw [hnil] at hm
  simp at hm

theorem submit_moves_grow (g : GameRecord) (a : String) (t : Nat) :
    (submitMoveRecord g a t).moves = g.moves ∨
      (submitMoveRecord g a t).moves = g.moves ++ [{ article := a, timestamp := t }] := by
  rcases submit_cases g a t with h | h
  · left; rw [h]
  · right; rw [h]; rfl

theorem submit_moves_length_mono (g : GameRecord) (a : String) (t : Nat) :
    g.moves.length ≤ (submitMoveRecord g a t).moves.length := by
  rcases submit_moves_grow g a t with h | h <;> simp [h]

theorem submit_complete_preserved (g : GameRecord) (a : String) (t : Nat)
    (hc : g.isComplete = true) (hcomp : CompletionInv g)
    (ha : a = g.currentArticle ∨ a = g.endArticle) :
    (submitMoveRecord g a t).isComplete = true := by
  have hce : g.currentArticle = g.endArticle := hcomp.mp hc
  have hae : a = g.endArticle := by
    rcases ha with h | h
    · exact h.trans hce
    · exact h
  rcases submit_cases g a t with h | h
  · rw [h]; exact hc
  · rw [h]; simp [applyMove, hae]

theorem submit_complete_flip_forces_new_nongoal_move (g : GameRecord)
    (a : String) (t : Nat) (hc : g.isComplete = true)
    (hflip : (submitMoveRecord g a t).isComplete = false) :
    a ≠ g.endArticle ∧
      (submitMoveRecord g a t).moves = g.moves ++ [{ article := a, timestamp := t }] := by
  rcases submit_cases g a t with h | h
  · rw [h] at hflip
    rw [hflip] at hc
    cases hc
  · constructor
    · intro hae
      rw [h] at hflip
      simp [applyMove, hae] at hflip
    · rw [h]; rfl

/-! ### Store, gateway and HTTP surface (modelled from the spec) -/

/-- Modelled from the spec: the error taxonomy of §7 that the gateway
surfaces over HTTP (§6). -/
inductive ApiError where
  | invalidInput
  | notFound
  | conflict
deriving DecidableEq, Repr

/-- Modelled from the spec: the HTTP status each gateway error maps to
(§6 table: 400 invalid input, 404 not found, 409 on exhausted retry). -/
def httpStatusOf : ApiError → Nat
  | ApiError.invalidInput => 400
  | ApiError.notFound => 404
  | ApiError.conflict => 409

/-- Modelled from the spec: the Game State Store, a durable mapping from
game identifier to game record (§4.1), as an association list. -/
abbrev Store := List (String × GameRecord)

/-- Modelled from the spec: the store's read path (§4.1 `read`). -/
def readGame : Store → String → Option GameRecord
  | [], _ => none
  | p :: rest, id => if p.1 == id then some p.2 else readGame rest id

/-- Modelled from the spec: committing a record for an existing id through
the store's update primitive (§4.1). -/
def writeGame : Store → String → GameRecord → Store
  | [], _, _ => []
  | p :: rest, id, g =>
      if p.1 == id then (id, g) :: writeGame rest id g
      else p :: writeGame rest id g

theorem readGame_write_self (s : Store) (id : String) (g g0 : GameRecord)
    (h : readGame s id = some g0) :
    readGame (writeGame s id g) id = some g := by
  induction s with
  | nil => simp [readGame] at h
  | cons p rest ih =>
      by_cases hp : p.1 = id
      · simp [readGame, writeGame, hp]
      · have h' : readGame rest id = some g0 := by
          simpa [readGame, hp] using h
        simpa [readGame, writeGame, hp] using ih h'

theorem writeGame_idem (s : Store) (id : String) (g : GameRecord) :
    writeGame (writeGame s id g) id g = writeGame s id g := by
  induction s with
  | nil => rfl
  | cons p rest ih =>
      by_cases hp : p.1 = id
      · simp [writeGame, hp, ih]
      · simp [writeGame, hp, ih]

/-- Modelled from the spec: the gateway's `submitMove(id, article)` on the
contention-free path (§4.3) — read the record, apply the idempotent
transition, commit it, and return the full updated record; `NotFound` if
the game id does not exist. -/
def submitMove (s : Store) (id a : String) (t : Nat) :
    Except ApiError (GameRecord × Store) :=
  match readGame s id with
  | none => Except.error ApiError.notFound
  | some g =>
      let g2 := submitMoveRecord g a t
      Except.ok (g2, writeGame s id g2)

theorem submitMove_pair (s : Store) (id a : String) (t1 t2 : Nat)
    (g1 : GameRecord) (s1 : Store)
    (h : submitMove s id a t1 = Except.ok (g1, s1)) :
    submitMove s1 id a t2 = Except.ok (g1, s1) := by
  unfold submitMove at h
  cases hr : readGame s id with
  | none => rw [hr] at h; cases h
  | some g =>
      rw [hr] at h
      simp only [Except.ok.injEq, Prod.mk.injEq] at h
      obtain ⟨hg, hs⟩ := h
      subst hg
      subst hs
      have hread : readGame (writeGame s id (submitMoveRecord g a t1)) id
          = some (submitMoveRecord g a t1) :=
        readGame_write_self s id (submitMoveRecord g a t1) g hr
      obtain ⟨m, hm, hma⟩ := getLast?_after_submit g a t1
      have hnoop : submitMoveRecord (submitMoveRecord g a t1) a t2
          = submitMoveRecord g a t1 :=
        submit_noop_of_last _ a t2 m hm hma
      simp only [submitMove, hread, hnoop, writeGame_idem]

/-- Modelled from the spec: the game mode / player field of §4.3 and §6
(`player: "human" | "ai"`). -/
inductive Player where
  | human
  | ai
deriving DecidableEq, Repr

/-- Modelled from the spec: the shared service context — the store plus the
work queue of game identifiers (§2). -/
structure SystemState where
  store : Store
  queue : List String

/-- Modelled from the spec: `createGame(startArticle, endArticle, mode)`
(§4.3) — writes a new GameRecord with empty `moves`; if the mode is
agent-driven, also pushes the id to the Work Queue; fails with
`InvalidInput` if either article name is empty. -/
def createGame (sys : SystemState) (id startArticle endArticle : String)
    (mode : Player) : Except ApiError (SystemState × String) :=
  if startArticle == "" || endArticle == "" then
    Except.error ApiError.invalidInput
  else
    Except.ok
      ({ store := (id, createGameRecord id startArticle endArticle) :: sys.store
         queue :=
           match mode with
           | Player.ai => sys.queue ++ [id]
           | Player.human => sys.queue }, id)

/-- Modelled from the spec: the optimistic-retry budget of §4.3 ("up to a
bounded number of attempts"). -/
def retryBudget : Nat := 3

/-- The idempotency check of `submitMove` (§4.3 and the API README): the
last move exists and carries the submitted article. -/
def isNoOp (g : GameRecord) (a : String) : Bool :=
  match g.moves.getLast? with
  | some m => m.article == a
  | none => false

theorem submitMoveRecord_eq_ite (g : GameRecord) (a : String) (t : Nat) :
    submitMoveRecord g a t = if isNoOp g a then g else applyMove g a t := by
  unfold submitMoveRecord isNoOp
  cases g.moves.getLast? with
  | none => simp
  | some m => by_cases hm : (m.article == a) = true <;> simp [hm]

/-- Modelled from the spec: the read–modify–compare-and-update cycle of
`submitMove` (§4.3).  Each attempt re-reads the record and re-checks the
idempotency rule; `interference` lists, attempt by attempt, the concurrent
writer's modification that wins the compare-and-update race (an empty head
means this caller's conditional write succeeds).  When the budget is
exhausted the call fails with `Conflict`. -/
def submitMoveLoop (a : String) (t : Nat) :
    Nat → GameRecord → List (GameRecord → GameRecord) → Except ApiError GameRecord
  | 0, _, _ => Except.error ApiError.conflict
  | Nat.succ n, g, interference =>
      if isNoOp g a then Except.ok g
      else
        match interference with
        | [] => Except.ok (applyMove g a t)
        | f :: rest => submitMoveLoop a t n (f g) rest

theorem submitMoveLoop_no_contention (a : String) (t : Nat) (n : Nat)
    (g : GameRecord) :
    submitMoveLoop a t (n + 1) g [] = Except.ok (submitMoveRecord g a t) := by
  rw [submitMoveRecord_eq_ite]
  by_cases hn : isNoOp g a = true
  · simp [submitMoveLoop, hn]
  · simp [submitMoveLoop, hn]

/-- HTTP route descriptor: method, path template, request-body fields and
success status. -/
structure RouteSpec where
  method : String
  path : String
  requestFields : List String
  successStatus : Nat
deriving DecidableEq, Repr

/-- Modelled from the spec: the update endpoint row of the §6 table —
`PATCH /game/\x7bid\x7d` with body `\x7barticle\x7d`, 200 on success. -/
def updateGameRoute : RouteSpec :=
  { method := "PATCH"
    path := "/game/\x7bid\x7d"
    requestFields := ["article"]
    successStatus := 200 }

/-- Modelled from the spec: the gateway handler behind the update endpoint
(§4.3, §6): returns the HTTP status, the optional response body (the full
GameRecord), and the resulting store. -/
def patchGame (s : Store) (id a : String) (t : Nat)
    (interference : List (GameRecord → GameRecord)) :
    Nat × Option GameRecord × Store :=
  match readGame s id with
  | none => (httpStatusOf ApiError.notFound, none, s)
  | some g =>
      match submitMoveLoop a t retryBudget g interference with
      | Except.ok g2 => (updateGameRoute.successStatus, some g2, writeGame s id g2)
      | Except.error e => (httpStatusOf e, none, s)

/-! ### Definitions translated from the TypeScript sources -/

/-- From `ui/src/api/client.ts`: the `CreateGameRequest` body
(`player: "human" | "ai"`, `startArticle`, `endArticle`). -/
structure CreateGameRequest where
  player : Player
  startArticle : String
  endArticle : String
deriving DecidableEq, Repr

/-- JavaScript's `String.prototype.trim`: strip leading and trailing
whitespace. -/
def jsTrim (s : String) : String :=
  String.mk
    (((s.data.dropWhile Char.isWhitespace).reverse.dropWhile
      Char.isWhitespace).reverse)

/-- From `ui/src/components/GameStart.tsx` `handleSubmit`: if either
trimmed article name is empty (falsy in the source), the form shows a
warning and does not call the mutation; otherwise it submits the trimmed
names with `player: "ai"`.  The returned value is the request the form
issues, `none` when it refuses to submit. -/
def handleSubmit (startArticle endArticle : String) : Option CreateGameRequest :=
  if jsTrim startArticle == "" || jsTrim endArticle == "" then none
  else
    some { player := Player.ai
           startArticle := jsTrim startArticle
           endArticle := jsTrim endArticle }

/-- An HTTP request issued by a client, identified by method and path. -/
structure HttpRequest where
  method : String
  path : String
deriving DecidableEq, Repr

/-- From `ui/src/api/client.ts` `api.createGame`:
`fetch("/api" + "/game", \x7b method: "POST", ... \x7d)`. -/
def uiCreateGameRequest : HttpRequest :=
  { method := "POST", path := "/api/game" }

/-- From `ui/src/api/client.ts` `api.getGameState`:
`fetch("/api" + "/game/" + id)` with no init object, hence the GET method. -/
def uiGetGameStateRequest (id : String) : HttpRequest :=
  { method := "GET", path := "/api/game/" ++ id }

/-- From the demo client (`wiki-game-demo` `lib/api`): the dev API base. -/
def demoApiBase : String := "/api"

/-- From the demo client `createGame`:
`fetch(API_BASE + "/game", \x7b method: "POST", ... \x7d)`. -/
def demoCreateGameRequest : HttpRequest :=
  { method := "POST", path := demoApiBase ++ "/game" }

/-- From the demo client `getGame`: `fetch(API_BASE + "/game/" + id)`,
hence the GET method. -/
def demoGetGameRequest (id : String) : HttpRequest :=
  { method := "GET", path := demoApiBase ++ "/game/" ++ id }

/-- Every request either presentation layer can issue against the game API:
`api.createGame` / `api.getGameState` in `ui/src/api/client.ts` and
`createGame` / `getGame` in the demo client are the only fetch call sites. -/
def uiRequests (id : String) : List HttpRequest :=
  [uiCreateGameRequest, uiGetGameStateRequest id,
   demoCreateGameRequest, demoGetGameRequest id]

/-- A request that only reads game records. -/
def isReadRequest (r : HttpRequest) : Bool := r.method == "GET"

/-- Field names of the move object in the `GET /game/\x7bid\x7d` response of
`src/api/README.md`. -/
def readmeMoveFields : List String := ["article", "timestamp"]

/-- Field names of `GameMove` in `ui/src/api/client.ts`. -/
def clientGameMoveFields : List String := ["article", "timestamp"]

/-- Field names of `Move` in the demo client (`wiki-game-demo` `lib/api`). -/
def demoMoveFields : List String := ["article", "timestamp", "url"]

/-- The move-element shapes declared across the repository. -/
def repoMoveFieldLists : List (List String) :=
  [readmeMoveFields, clientGameMoveFields, demoMoveFields]

/-- From the demo client (`wiki-game-demo` `lib/api`): `Move` with fields
`article`, `timestamp` (ISO string) and `url`. -/
structure DemoMove where
  article : String
  timestamp : String
  url : String
deriving DecidableEq, Repr

/-- From the demo client: `GameState`. -/
structure DemoGameState where
  id : String
  startArticle : String
  endArticle : String
  moves : List DemoMove
  currentArticle : String
  isComplete : Bool
deriving DecidableEq, Repr

/-- From the demo `Game` page: the `lastUrl` memo —
`list.length ? list[list.length - 1].url : null` over `query.data`. -/
def lastUrl (data : Option DemoGameState) : Option String :=
  match data with
  | none => none
  | some d =>
      if d.moves.length = 0 then none
      else (d.moves.get? (d.moves.length - 1)).map DemoMove.url

/-- What the demo `Game` page's "Current page" pane renders. -/
inductive PagePane where
  | placeholder
  | frame (src : String)
deriving DecidableEq, Repr

/-- From the demo `Game` page: `!lastUrl` renders the waiting placeholder,
otherwise an iframe with `src=\x7blastUrl\x7d`.  In JavaScript `!lastUrl`
is true both when `lastUrl` is `null` and when it is the empty string
(falsy), so both cases render the placeholder. -/
def renderPagePane (data : Option DemoGameState) : PagePane :=
  match lastUrl data with
  | none => PagePane.placeholder
  | some u => if u == "" then PagePane.placeholder else PagePane.frame u

/-- The characters JavaScript's `encodeURIComponent` leaves unencoded:
ASCII letters, digits, and `- _ . ! ~ * ( )` plus the apostrophe
(ECMA-262 `uriUnescaped`), given here by code point. -/
def isUriUnescaped (c : Char) : Bool :=
  (65 ≤ c.toNat && c.toNat ≤ 90) ||
  (97 ≤ c.toNat && c.toNat ≤ 122) ||
  (48 ≤ c.toNat && c.toNat ≤ 57) ||
  c.toNat = 45 || c.toNat = 95 || c.toNat = 46 || c.toNat = 33 ||
  c.toNat = 126 || c.toNat = 42 || c.toNat = 39 || c.toNat = 40 ||
  c.toNat = 41

/-- Upper-case hexadecimal digit for a value below 16. -/
def hexDigit (n : Nat) : Char :=
  if n < 10 then Char.ofNat (48 + n) else Char.ofNat (55 + n)

/-- `%XX` percent-encoding of one byte. -/
def percentEncodeByte (b : Nat) : String :=
  String.mk [Char.ofNat 37, hexDigit (b / 16), hexDigit (b % 16)]

/-- The UTF-8 bytes of one character. -/
def utf8Bytes (c : Char) : List Nat :=
  let n := c.toNat
  if n < 128 then [n]
  else if n < 2048 then [192 + n / 64, 128 + n % 64]
  else if n < 65536 then [224 + n / 4096, 128 + (n / 64) % 64, 128 + n % 64]
  else [240 + n / 262144, 128 + (n / 4096) % 64, 128 + (n / 64) % 64,
        128 + n % 64]

/-- Model of JavaScript's `encodeURIComponent`: unescaped characters pass
through, every other character is replaced by the percent-encoding of its
UTF-8 bytes. -/
def encodeURIComponent (s : String) : String :=
  String.join (s.data.map (fun c =>
    if isUriUnescaped c then String.mk [c]
    else String.join ((utf8Bytes c).map percentEncodeByte)))

/-- From `GamePlay` (`components/GamePlay.tsx`) `getWikipediaUrl`:
`"https://en.wikipedia.org/wiki/" + encodeURIComponent(article.replace(/ /g, "_"))`. -/
def getWikipediaUrl (article : String) : String :=
  "https://en.wikipedia.org/wiki/" ++
    encodeURIComponent
      (String.mk (article.data.map (fun c => if c = ' ' then '_' else c)))

/-- From `ui/src/api/client.ts`: `GameMove`. -/
structure UiGameMove where
  article : String
  timestamp : String
deriving DecidableEq, Repr

/-- From `ui/src/api/client.ts`: `GameState`, the state `GamePlay` renders. -/
structure UiGameState where
  id : String
  startArticle : String
  endArticle : String
  moves : List UiGameMove
  currentArticle : String
  isComplete : Bool
deriving DecidableEq, Repr

/-- From `GamePlay` `WikipediaFrame`: an iframe whose
`src` is `getWikipediaUrl(gameState.currentArticle)`. -/
def wikipediaFrameSrc (gameState : UiGameState) : String :=
  getWikipediaUrl gameState.currentArticle

/-! ### Claim theorems -/

/-- C1: `submitMove` is idempotent on the last move — when `moves` is
non-empty and its last entry's article equals the submitted article, the
record is returned unchanged (no appended entry, no version advance); and
at the gateway level, submitting the same article twice in a row for any
valid game id returns the identical record and store after both calls, so
`moves` length and content agree. -/
theorem claim_C1_submit_idempotent :
    (∀ (g : GameRecord) (a : String) (t : Nat) (m : Move),
        g.moves.getLast? = some m → m.article = a →
        submitMoveRecord g a t = g) ∧
    (∀ (s : Store) (id a : String) (t1 t2 : Nat) (g1 : GameRecord) (s1 : Store),
        submitMove s id a t1 = Except.ok (g1, s1) →
        submitMove s1 id a t2 = Except.ok (g1, s1)) := by
  constructor
  · intro g a t m hm ha
    exact submit_noop_of_last g a t m hm ha
  · intro s id a t1 t2 g1 s1 h
    exact submitMove_pair s id a t1 t2 g1 s1 h

/-- A concrete record whose last move is `"B"`, for the C1 witness. -/
def exampleRecordC1 : GameRecord :=
  { id := "g1", startArticle := "A", endArticle := "B",
    currentArticle := "B",
    moves := [{ article := "B", timestamp := 1 }],
    isComplete := true, version := 1 }

/-- A concrete one-game store, for the C1 witness. -/
def exampleStoreC1 : Store := [("g1", exampleRecordC1)]

/-- Witness for C1 at concrete inputs: a record whose last move is `"B"`
is returned unchanged, and a second submission of `"B"` to game `"g1"`
returns the same record and store as the first. -/
theorem claim_C1_submit_idempotent_witness :
    submitMoveRecord exampleRecordC1 "B" 5 = exampleRecordC1 ∧
    submitMove exampleStoreC1 "g1" "B" 7 =
      Except.ok (exampleRecordC1, exampleStoreC1) := by
  refine ⟨claim_C1_submit_idempotent.1 exampleRecordC1 "B" 5
    { article := "B", timestamp := 1 } rfl rfl, ?_⟩
  exact claim_C1_submit_idempotent.2 exampleStoreC1 "g1" "B" 7 7
    exampleRecordC1 exampleStoreC1 rfl

/-- C2: termination correctness — in every reachable game record,
`isComplete = true` holds exactly when `currentArticle = endArticle`. -/
theorem claim_C2_termination_correctness (g : GameRecord) (h : Reachable g) :
    g.isComplete = true ↔ g.currentArticle = g.endArticle :=
  completionInv_reachable g h

/-- Witness for C2: the record reached by creating `("Apple","Fruit")` and
submitting `"Fruit"` satisfies the equivalence. -/
theorem claim_C2_termination_correctness_witness :
    (submitMoveRecord (createGameRecord "g2" "Apple" "Fruit") "Fruit" 1).isComplete = true ↔
      (submitMoveRecord (createGameRecord "g2" "Apple" "Fruit") "Fruit" 1).currentArticle =
        (submitMoveRecord (createGameRecord "g2" "Apple" "Fruit") "Fruit" 1).endArticle :=
  claim_C2_termination_correctness _
    (Reachable.step _ "Fruit" 1 (Reachable.created "g2" "Apple" "Fruit"))

/-- The game `start="A", end="B"` just after creation. -/
def c3Game0 : GameRecord := createGameRecord "g3" "A" "B"

/-- `c3Game0` after submitting `"B"` — the game is complete. -/
def c3Game1 : GameRecord := submitMoveRecord c3Game0 "B" 1

/-- `c3Game1` after submitting `"C"` — a further operation on the game. -/
def c3Game2 : GameRecord := submitMoveRecord c3Game1 "C" 2

/-- Counterexample to C3 as stated: across the operation sequence
create `("A","B")`; submit `"B"`; submit `"C"`, the flag `isComplete`
transitions from `true` back to `false`, so it is not one-way across
every sequence of operations. -/
theorem claim_C3_counterexample :
    c3Game1.isComplete = true ∧ c3Game2.isComplete = false := by decide

/-- C3 amended: the length of `moves` never decreases across any
operation; and a `true → false` transition of `isComplete` can only happen
when a fresh move whose article differs from `endArticle` is appended to
an already-complete game — in particular, resubmitting the current (goal)
article of a complete reachable game preserves completeness, so the
worker protocol (which never submits new articles to complete games)
never reverts the flag. -/
theorem claim_C3_monotonicity_amended :
    (∀ (g : GameRecord) (a : String) (t : Nat),
        g.moves.length ≤ (submitMoveRecord g a t).moves.length) ∧
    (∀ (g : GameRecord) (a : String) (t : Nat),
        Reachable g → g.isComplete = true →
        (a = g.currentArticle ∨ a = g.endArticle) →
        (submitMoveRecord g a t).isComplete = true) ∧
    (∀ (g : GameRecord) (a : String) (t : Nat),
        g.isComplete = true → (submitMoveRecord g a t).isComplete = false →
        a ≠ g.endArticle ∧
          (submitMoveRecord g a t).moves =
            g.moves ++ [{ article := a, timestamp := t }]) := by
  refine ⟨fun g a t => submit_moves_length_mono g a t, ?_, ?_⟩
  · intro g a t hr hc ha
    exact submit_complete_preserved g a t hc (completionInv_reachable g hr) ha
  · intro g a t hc hf
    exact submit_complete_flip_forces_new_nongoal_move g a t hc hf

/-- Witness for the amended C3 at concrete inputs: the length bound after
submitting `"B"` to the fresh game, preservation of completeness when the
goal article `"B"` is resubmitted to the complete game, and the
characterization of the flip caused by submitting `"C"`. -/
theorem claim_C3_monotonicity_amended_witness :
    c3Game0.moves.length ≤ (submitMoveRecord c3Game0 "B" 1).moves.length ∧
    (submitMoveRecord c3Game1 "B" 5).isComplete = true ∧
    ("C" ≠ c3Game1.endArticle ∧
      (submitMoveRecord c3Game1 "C" 2).moves =
        c3Game1.moves ++ [{ article := "C", timestamp := 2 }]) := by
  refine ⟨claim_C3_monotonicity_amended.1 c3Game0 "B" 1, ?_, ?_⟩
  · exact claim_C3_monotonicity_amended.2.1 c3Game1 "B" 5
      (Reachable.step c3Game0 "B" 1 (Reachable.created "g3" "A" "B"))
      (by decide) (Or.inl (by decide))
  · exact claim_C3_monotonicity_amended.2.2 c3Game1 "C" 2 (by decide) (by decide)

/-- C4: position invariant — in every reachable record, `currentArticle`
equals the last move's article when `moves` is non-empty and equals
`startArticle` when `moves` is empty; and `moves` is non-empty after any
successful update. -/
theorem claim_C4_position_invariant (g : GameRecord) (h : Reachable g) :
    (∀ m : Move, g.moves.getLast? = some m → g.currentArticle = m.article) ∧
    (g.moves = [] → g.currentArticle = g.startArticle) ∧
    (∀ (a : String) (t : Nat), (submitMoveRecord g a t).moves ≠ []) := by
  have hp := positionInv_reachable g h
  refine ⟨?_, ?_, fun a t => submit_moves_ne_nil g a t⟩
  · intro m hm
    unfold PositionInv at hp
    rw [hm] at hp
    exact hp
  · intro hnil
    unfold PositionInv at hp
    rw [hnil] at hp
    simpa using hp

/-- Witness for C4 at a concrete reachable record: created `("A","B")`
then submitted `"C"`. -/
theorem claim_C4_position_invariant_witness :
    (∀ m : Move,
        (submitMoveRecord (createGameRecord "g4" "A" "B") "C" 3).moves.getLast? = some m →
        (submitMoveRecord (createGameRecord "g4" "A" "B") "C" 3).currentArticle = m.article) ∧
    ((submitMoveRecord (createGameRecord "g4" "A" "B") "C" 3).moves = [] →
        (submitMoveRecord (createGameRecord "g4" "A" "B") "C" 3).currentArticle =
          (submitMoveRecord (createGameRecord "g4" "A" "B") "C" 3).startArticle) ∧
    (∀ (a : String) (t : Nat),
        (submitMoveRecord (submitMoveRecord (createGameRecord "g4" "A" "B") "C" 3) a t).moves ≠ []) :=
  claim_C4_position_invariant _
    (Reachable.step _ "C" 3 (Reachable.created "g4" "A" "B"))

/-- C5: the update endpoint is `PATCH /game/\x7bid\x7d` with body
`\x7barticle\x7d`; on success the handler returns status 200 with the full
updated GameRecord; it returns 404 when the game id is not in the store
and 409 when the optimistic-retry budget is exhausted. -/
theorem claim_C5_update_endpoint :
    updateGameRoute.method = "PATCH" ∧
    updateGameRoute.requestFields = ["article"] ∧
    updateGameRoute.successStatus = 200 ∧
    (∀ (s : Store) (id a : String) (t : Nat)
        (o : List (GameRecord → GameRecord)),
        readGame s id = none → patchGame s id a t o = (404, none, s)) ∧
    (∀ (s : Store) (id a : String) (t : Nat) (g : GameRecord),
        readGame s id = some g →
        patchGame s id a t [] =
          (200, some (submitMoveRecord g a t),
            writeGame s id (submitMoveRecord g a t))) ∧
    (∀ (s : Store) (id a : String) (t : Nat)
        (o : List (GameRecord → GameRecord)) (g : GameRecord),
        readGame s id = some g →
        submitMoveLoop a t retryBudget g o = Except.error ApiError.conflict →
        patchGame s id a t o = (409, none, s)) := by
  refine ⟨rfl, rfl, rfl, ?_, ?_, ?_⟩
  · intro s id a t o h
    simp [patchGame, h, httpStatusOf]
  · intro s id a t g h
    have hloop := submitMoveLoop_no_contention a t 2 g
    simp [patchGame, h, retryBudget] at hloop ⊢
    simp [show (3 : Nat) = 2 + 1 from rfl, hloop, updateGameRoute]
  · intro s id a t o g h hloop
    simp [patchGame, h, hloop, httpStatusOf]

/-- Witness for C5 at concrete inputs: a missing id yields 404; a
contention-free submission of `"B"` to the fresh game `"g5"` yields 200
with the updated record; three interfering writers in a row exhaust the
retry budget and yield 409. -/
theorem claim_C5_update_endpoint_witness :
    patchGame [] "gx" "B" 0 [] = (404, none, []) ∧
    patchGame [("g5", createGameRecord "g5" "A" "B")] "g5" "B" 1 [] =
      (200, some (submitMoveRecord (createGameRecord "g5" "A" "B") "B" 1),
        writeGame [("g5", createGameRecord "g5" "A" "B")] "g5"
          (submitMoveRecord (createGameRecord "g5" "A" "B") "B" 1)) ∧
    patchGame [("g5", createGameRecord "g5" "A" "B")] "g5" "Y" 1
        [fun g => applyMove g "X" 0, fun g => applyMove g "X" 0,
         fun g => applyMove g "X" 0] =
      (409, none, [("g5", createGameRecord "g5" "A" "B")]) := by
  refine ⟨claim_C5_update_endpoint.2.2.2.1 [] "gx" "B" 0 [] rfl, ?_, ?_⟩
  · exact claim_C5_update_endpoint.2.2.2.2.1
      [("g5", createGameRecord "g5" "A" "B")] "g5" "B" 1
      (createGameRecord "g5" "A" "B") rfl
  · exact claim_C5_update_endpoint.2.2.2.2.2
      [("g5", createGameRecord "g5" "A" "B")] "g5" "Y" 1
      [fun g => applyMove g "X" 0, fun g => applyMove g "X" 0,
       fun g => applyMove g "X" 0]
      (createGameRecord "g5" "A" "B") rfl rfl

/-- C6: game creation rejects empty names — `createGame` with an empty
`startArticle` or `endArticle` fails with `InvalidInput` (mapped to HTTP
400) and returns no new system state (no record is created, no queue
push); and the client form refuses to submit when either trimmed article
name is empty. -/
theorem claim_C6_reject_empty_names :
    (∀ (sys : SystemState) (id s e : String) (mode : Player),
        s = "" ∨ e = "" →
        createGame sys id s e mode = Except.error ApiError.invalidInput) ∧
    httpStatusOf ApiError.invalidInput = 400 ∧
    (∀ s e : String, jsTrim s = "" ∨ jsTrim e = "" → handleSubmit s e = none) := by
  refine ⟨?_, rfl, ?_⟩
  · intro sys id s e mode h
    rcases h with h | h <;> simp [createGame, h]
  · intro s e h
    rcases h with h | h <;> simp [handleSubmit, h]

/-- Witness for C6 at concrete inputs: creating with an empty start
article fails with `InvalidInput`, and the form with a whitespace-only
start article does not submit. -/
theorem claim_C6_reject_empty_names_witness :
    createGame { store := [], queue := [] } "g6" "" "B" Player.ai =
      Except.error ApiError.invalidInput ∧
    handleSubmit "  " "B" = none := by
  refine ⟨claim_C6_reject_empty_names.1 { store := [], queue := [] }
    "g6" "" "B" Player.ai (Or.inl rfl), ?_⟩
  exact claim_C6_reject_empty_names.2.2 "  " "B" (Or.inl (by decide))

/-- Counterexample to C7 as stated: the UI does not consume the read API
only — among the requests its client code issues for game `"g7"` is one
that is not a read (the `POST /game` creation request that writes a new
game record). -/
theorem claim_C7_counterexample :
    ¬ (∀ r ∈ uiRequests "g7", isReadRequest r = true) := by decide

/-- C7 amended: every request the presentation layer issues is either a
read of a game record or the game-creation request; in particular the UI
never issues the move-submission request, so it never mutates the state
of an existing game. -/
theorem claim_C7_read_and_create_only_amended (id : String) :
    ∀ r ∈ uiRequests id,
      (isReadRequest r = true ∨ r = uiCreateGameRequest ∨
        r = demoCreateGameRequest) ∧
      r.method ≠ updateGameRoute.method := by
  intro r hr
  simp only [uiRequests, List.mem_cons, List.not_mem_nil, or_false] at hr
  rcases hr with h | h | h | h <;> subst h
  · exact ⟨Or.inr (Or.inl rfl), by decide⟩
  · exact ⟨Or.inl rfl, by show ("GET" : String) ≠ "PATCH"; decide⟩
  · exact ⟨Or.inr (Or.inr rfl), by decide⟩
  · exact ⟨Or.inl rfl, by show ("GET" : String) ≠ "PATCH"; decide⟩

/-- Witness for the amended C7 at a concrete request: the state read for
game `"abc"` is a read and is not the update method. -/
theorem claim_C7_read_and_create_only_amended_witness :
    (isReadRequest (uiGetGameStateRequest "abc") = true ∨
      uiGetGameStateRequest "abc" = uiCreateGameRequest ∨
      uiGetGameStateRequest "abc" = demoCreateGameRequest) ∧
    (uiGetGameStateRequest "abc").method ≠ updateGameRoute.method :=
  claim_C7_read_and_create_only_amended "abc" (uiGetGameStateRequest "abc")
    (by decide)

/-- Counterexample to C8 as stated: not every move element in the
repository consists of exactly the fields `\x7barticle, timestamp\x7d` —
the demo client's `Move` type also carries a `url` field. -/
theorem claim_C8_counterexample :
    ¬ (∀ fs ∈ repoMoveFieldLists, fs = ["article", "timestamp"]) := by decide

/-- C8 amended: every move element in the repository carries at least the
fields `article` and `timestamp` (the API README and the main client have
exactly those; the demo client's `Move` additionally carries `url`), and
the `moves` sequence is append-only: an update either leaves it unchanged
or appends exactly the submitted article stamped with the submission
time, so insertion order is chronological and significant. -/
theorem claim_C8_moves_shape_amended :
    (∀ fs ∈ repoMoveFieldLists, "article" ∈ fs ∧ "timestamp" ∈ fs) ∧
    demoMoveFields = ["article", "timestamp", "url"] ∧
    (∀ (g : GameRecord) (a : String) (t : Nat),
        (submitMoveRecord g a t).moves = g.moves ∨
          (submitMoveRecord g a t).moves =
            g.moves ++ [{ article := a, timestamp := t }]) := by
  refine ⟨by decide, rfl, fun g a t => submit_moves_grow g a t⟩

/-- Witness for the amended C8 at a concrete field list: the API README's
move shape contains both required fields. -/
theorem claim_C8_moves_shape_amended_witness :
    "article" ∈ readmeMoveFields ∧ "timestamp" ∈ readmeMoveFields :=
  claim_C8_moves_shape_amended.1 readmeMoveFields (by decide)

theorem lastUrl_eq_getLast (d : DemoGameState) :
    lastUrl (some d) = d.moves.getLast?.map DemoMove.url := by
  unfold lastUrl
  by_cases h : d.moves.length = 0
  · simp [h, List.length_eq_zero.mp h]
  · simp [h, List.get?_eq_getElem?, ← List.getLast?_eq_getElem?]

/-- A loaded demo state whose single — hence last — move carries the empty
string as its `url`. -/
def c9EmptyUrlState : DemoGameState :=
  { id := "g9e", startArticle := "A", endArticle := "B",
    moves := [{ article := "A2", timestamp := "t1", url := "" }],
    currentArticle := "A2", isComplete := false }

/-- Counterexample to C9 as stated: for a loaded state whose `moves` is
non-empty but whose last move's `url` is the empty string, the demo page
renders the waiting placeholder (the empty string is falsy in
`!lastUrl`), not an iframe whose URL is that `url` field. -/
theorem claim_C9_counterexample :
    c9EmptyUrlState.moves.getLast? =
        some { article := "A2", timestamp := "t1", url := "" } ∧
    renderPagePane (some c9EmptyUrlState) ≠ PagePane.frame "" ∧
    renderPagePane (some c9EmptyUrlState) = PagePane.placeholder := by decide

/-- C9 amended: in the demo game view, when the loaded state's `moves`
sequence is non-empty and the last move's `url` is a non-empty string,
the embedded page is an iframe whose URL is that `url` field; when
`moves` is empty — or the last `url` is the empty string, which is falsy
in JavaScript — no iframe is rendered and the waiting placeholder is
shown. -/
theorem claim_C9_demo_iframe_amended (d : DemoGameState) :
    (∀ m : DemoMove, d.moves.getLast? = some m → m.url ≠ "" →
        renderPagePane (some d) = PagePane.frame m.url) ∧
    (d.moves = [] → renderPagePane (some d) = PagePane.placeholder) ∧
    (∀ m : DemoMove, d.moves.getLast? = some m → m.url = "" →
        renderPagePane (some d) = PagePane.placeholder) := by
  refine ⟨?_, ?_, ?_⟩
  · intro m hm hne
    simp [renderPagePane, lastUrl_eq_getLast, hm, hne]
  · intro hnil
    simp [renderPagePane, lastUrl_eq_getLast, hnil]
  · intro m hm hurl
    simp [renderPagePane, lastUrl_eq_getLast, hm, hurl]

/-- Witness for the amended C9: a concrete loaded state with one move and
a non-empty `url` renders the iframe with that URL, and the state whose
last `url` is empty renders the placeholder. -/
theorem claim_C9_demo_iframe_amended_witness :
    renderPagePane
        (some { id := "g9", startArticle := "A", endArticle := "B",
                moves := [{ article := "A2", timestamp := "t1",
                            url := "https://en.wikipedia.org/wiki/A2" }],
                currentArticle := "A2", isComplete := false }) =
      PagePane.frame "https://en.wikipedia.org/wiki/A2" ∧
    renderPagePane (some c9EmptyUrlState) = PagePane.placeholder := by
  constructor
  · exact (claim_C9_demo_iframe_amended
        { id := "g9", startArticle := "A", endArticle := "B",
          moves := [{ article := "A2", timestamp := "t1",
                      url := "https://en.wikipedia.org/wiki/A2" }],
          currentArticle := "A2", isComplete := false }).1
      { article := "A2", timestamp := "t1",
        url := "https://en.wikipedia.org/wiki/A2" } rfl (by decide)
  · exact (claim_C9_demo_iframe_amended c9EmptyUrlState).2.2
      { article := "A2", timestamp := "t1", url := "" } rfl rfl

/-- C10: the GamePlay page's Wikipedia URL builder returns
`"https://en.wikipedia.org/wiki/"` concatenated with `encodeURIComponent`
applied to the article with every space replaced by an underscore, and
the rendered iframe's source is this builder applied to the game's
`currentArticle`. -/
theorem claim_C10_wikipedia_url :
    (∀ a : String,
        getWikipediaUrl a =
          "https://en.wikipedia.org/wiki/" ++
            encodeURIComponent
              (String.mk (a.data.map
                (fun c => if c = ' ' then '_' else c)))) ∧
    (∀ gs : UiGameState,
        wikipediaFrameSrc gs = getWikipediaUrl gs.currentArticle) :=
  ⟨fun _ => rfl, fun _ => rfl⟩

theorem getWikipediaUrl_example :
    getWikipediaUrl "Albert Einstein" =
      "https://en.wikipedia.org/wiki/Albert_Einstein" := by decide

end WikiGame
